import Mathlib

/-!
Verification development for the prime-tools repository.

The two programs modelled here are `src/route_cost_estimator.py` (the
route-economics engine: `calculate_costs_and_profit` and
`get_cashflow_risk_analysis`) and `src/image_to_report_manual.py` (the
manual slip-report form: validation and report construction from the
`if submitted:` block).

Modelling conventions:
* Python floats are modelled as exact rationals (`ℚ`); the arithmetic
  pipeline is straight-line multiplication/division, and the spec treats
  it as exact ("no rounding until display").
* A Python dict value is a `PyVal` (a number or a string); a possibly
  absent dict key is an `Option PyVal`, so `inputs.get(key, 0)` followed
  by `float(...)` becomes `pyFloat : Option PyVal → Except String ℚ`,
  with `Except.error` standing for a raised `ValueError`.
* Python `float(<string>)` is modelled for optionally signed decimal
  numerals (digits with at most one dot); other strings raise. String
  predicates (`str.isdigit`, `str.upper`) are modelled on ASCII, which
  covers every string the forms produce.
-/

namespace PrimeTools

/-- A Python dict value as it occurs in the apps: a number or a string. -/
inductive PyVal where
  | num (q : ℚ)
  | str (s : String)
deriving DecidableEq

/-- Digit-string to natural number, `foldl`-style (leading zeros allowed). -/
def natOfDigits (l : List Char) : ℕ :=
  l.foldl (fun n c => 10 * n + (c.toNat - 48)) 0

/-- Split a character list at the first `'.'`: the part before it and,
when a dot is present, the part after it. -/
def splitFirstDot : List Char → List Char × Option (List Char)
  | [] => ([], none)
  | c :: cs =>
    if c = '.' then ([], some cs)
    else
      let p := splitFirstDot cs
      (c :: p.1, p.2)

/-- Python `float` on an unsigned decimal numeral (as a character list):
digits with at most one dot and at least one digit.  Returns `none` for
any other string (modelling the raised `ValueError`). -/
def parseUnsigned? (l : List Char) : Option ℚ :=
  let p := splitFirstDot l
  match p.2 with
  | none =>
    if !p.1.isEmpty && p.1.all Char.isDigit then some (natOfDigits p.1) else none
  | some b =>
    if b.contains '.' then none
    else if (!p.1.isEmpty || !b.isEmpty) && p.1.all Char.isDigit && b.all Char.isDigit then
      some ((natOfDigits p.1 : ℚ) + (natOfDigits b : ℚ) / 10 ^ b.length)
    else none

/-- An optional leading sign in front of an unsigned decimal numeral. -/
def parseSigned? (l : List Char) : Option ℚ :=
  match l with
  | [] => parseUnsigned? []
  | c :: rest =>
    if c = '-' then (parseUnsigned? rest).map (fun q => -q)
    else if c = '+' then parseUnsigned? rest
    else parseUnsigned? (c :: rest)

/-- Python `float` on a string: an optional sign followed by an unsigned
decimal numeral; anything else raises `ValueError` (`none`). -/
def parseDecimal? (s : String) : Option ℚ :=
  parseSigned? s.data

/-- `float(inputs.get(key, 0))`: an absent key defaults to `0`, a numeric
value passes through, a string value is parsed as a decimal numeral and
raises `ValueError` otherwise. -/
def pyFloat : Option PyVal → Except String ℚ
  | none => .ok 0
  | some (.num q) => .ok q
  | some (.str s) =>
    match parseDecimal? s with
    | some q => .ok q
    | none => .error "ValueError: could not convert string to float"

/-- The `inputs` dict handed to `calculate_costs_and_profit` (built at
`route_cost_estimator.py:698`).  Each key may be absent; the three
non-numeric keys (`loading_point`, `offloading_point`, `payment_terms`)
are carried but never read by the engine. -/
structure InputMap where
  loading_point : Option PyVal := none
  offloading_point : Option PyVal := none
  distance : Option PyVal := none
  load : Option PyVal := none
  fuel_price : Option PyVal := none
  toll_fees : Option PyVal := none
  turnaround_time : Option PyVal := none
  rate_per_ton : Option PyVal := none
  payment_terms : Option PyVal := none
deriving DecidableEq

/-- `FUEL_CONSUMPTION_PER_KM = 0.35` (litres per km). -/
def FUEL_CONSUMPTION_PER_KM : ℚ := 0.35

/-- `DRIVER_COST_PER_HOUR = 85` (R per hour). -/
def DRIVER_COST_PER_HOUR : ℚ := 85

/-- `VEHICLE_OPERATING_COST_PER_KM = 4.50` (R per km). -/
def VEHICLE_OPERATING_COST_PER_KM : ℚ := 4.50

/-- `ADMIN_OVERHEAD_PERCENTAGE = 0.08` (8% for admin costs). -/
def ADMIN_OVERHEAD_PERCENTAGE : ℚ := 0.08

/-- The six numeric inputs after `float(inputs.get(key, 0))` extraction. -/
structure QInputs where
  distance : ℚ
  load : ℚ
  fuel_price : ℚ
  toll_fees : ℚ
  turnaround_time : ℚ
  rate_per_ton : ℚ
deriving DecidableEq

/-- The dict returned by `calculate_costs_and_profit`
(`route_cost_estimator.py:404-417`). -/
structure Results where
  fuel_cost : ℚ
  driver_cost : ℚ
  vehicle_operating_cost : ℚ
  toll_fees : ℚ
  admin_cost : ℚ
  total_cost : ℚ
  total_revenue : ℚ
  profit : ℚ
  profit_margin : ℚ
  cost_per_ton : ℚ
  recommended_rate_per_ton : ℚ
  recommended_rate_per_km : ℚ
deriving DecidableEq

/-- The arithmetic body of `calculate_costs_and_profit`
(`route_cost_estimator.py:384-417`), after input extraction. -/
def computeResults (i : QInputs) : Results :=
  let fuel_cost := i.distance * FUEL_CONSUMPTION_PER_KM * i.fuel_price
  let driver_cost := i.turnaround_time * DRIVER_COST_PER_HOUR
  let vehicle_operating_cost := i.distance * VEHICLE_OPERATING_COST_PER_KM
  let admin_cost :=
    (fuel_cost + driver_cost + vehicle_operating_cost + i.toll_fees) * ADMIN_OVERHEAD_PERCENTAGE
  let total_cost := fuel_cost + driver_cost + vehicle_operating_cost + i.toll_fees + admin_cost
  let total_revenue := i.load * i.rate_per_ton
  let profit := total_revenue - total_cost
  let profit_margin := if total_revenue > 0 then profit / total_revenue * 100 else 0
  let cost_per_ton := if i.load > 0 then total_cost / i.load else 0
  let recommended_rate_per_ton := cost_per_ton * 1.2
  let recommended_rate_per_km := if i.distance > 0 then total_revenue / i.distance else 0
  { fuel_cost := fuel_cost
    driver_cost := driver_cost
    vehicle_operating_cost := vehicle_operating_cost
    toll_fees := i.toll_fees
    admin_cost := admin_cost
    total_cost := total_cost
    total_revenue := total_revenue
    profit := profit
    profit_margin := profit_margin
    cost_per_ton := cost_per_ton
    recommended_rate_per_ton := recommended_rate_per_ton
    recommended_rate_per_km := recommended_rate_per_km }

/-- `calculate_costs_and_profit` (`route_cost_estimator.py:373-417`):
extract the six numeric inputs (missing keys default to `0`; a
non-numeric string makes `float` raise, modelled by `Except.error`), then
run the arithmetic body. -/
def calculate_costs_and_profit (inputs : InputMap) : Except String Results := do
  let distance ← pyFloat inputs.distance
  let load ← pyFloat inputs.load
  let fuel_price ← pyFloat inputs.fuel_price
  let toll_fees ← pyFloat inputs.toll_fees
  let turnaround_time ← pyFloat inputs.turnaround_time
  let rate_per_ton ← pyFloat inputs.rate_per_ton
  pure (computeResults ⟨distance, load, fuel_price, toll_fees, turnaround_time, rate_per_ton⟩)

/-- The input map reads as the given six numbers: every numeric key
extracts without raising. -/
def ReadsAs (m : InputMap) (q : QInputs) : Prop :=
  pyFloat m.distance = .ok q.distance ∧
  pyFloat m.load = .ok q.load ∧
  pyFloat m.fuel_price = .ok q.fuel_price ∧
  pyFloat m.toll_fees = .ok q.toll_fees ∧
  pyFloat m.turnaround_time = .ok q.turnaround_time ∧
  pyFloat m.rate_per_ton = .ok q.rate_per_ton

instance : DecidableEq (Except String ℚ) := fun a b =>
  match a, b with
  | .ok x, .ok y => decidable_of_iff (x = y) (by simp)
  | .error x, .error y => decidable_of_iff (x = y) (by simp)
  | .ok _, .error _ => .isFalse (by simp)
  | .error _, .ok _ => .isFalse (by simp)

instance : DecidableEq (Except String PrimeTools.Results) := fun a b =>
  match a, b with
  | .ok x, .ok y => decidable_of_iff (x = y) (by simp)
  | .error x, .error y => decidable_of_iff (x = y) (by simp)
  | .ok _, .error _ => .isFalse (by simp)
  | .error _, .ok _ => .isFalse (by simp)

instance (m : InputMap) (q : QInputs) : Decidable (ReadsAs m q) := by
  unfold ReadsAs; infer_instance

/-- All six numeric inputs are non-negative. -/
def QInputs.Nonneg (q : QInputs) : Prop :=
  0 ≤ q.distance ∧ 0 ≤ q.load ∧ 0 ≤ q.fuel_price ∧
  0 ≤ q.toll_fees ∧ 0 ≤ q.turnaround_time ∧ 0 ≤ q.rate_per_ton

instance (q : QInputs) : Decidable q.Nonneg := by
  unfold QInputs.Nonneg; infer_instance

/-- One entry of the `risk_levels` dict in `get_cashflow_risk_analysis`
(`route_cost_estimator.py:422-427`). -/
structure RiskInfo where
  risk : String
  color : String
  days : ℚ
deriving DecidableEq

/-- `risk_levels.get(payment_terms, risk_levels['Weekly'])`
(`route_cost_estimator.py:422-429`): the four-entry dict, with the
Weekly entry as the default for any other string. -/
def risk_levels (payment_terms : String) : RiskInfo :=
  if payment_terms = "Cash" then ⟨"Low", "success", 0⟩
  else if payment_terms = "Daily" then ⟨"Low", "success", 1⟩
  else if payment_terms = "Weekly" then ⟨"Medium", "warning", 7⟩
  else if payment_terms = "Monthly" then ⟨"High", "danger", 30⟩
  else ⟨"Medium", "warning", 7⟩

/-- The `analysis` dict returned by `get_cashflow_risk_analysis`
(`route_cost_estimator.py:435-442`). -/
structure CashflowAnalysis where
  risk_level : String
  color : String
  days_to_payment : ℚ
  cash_tied_up : ℚ
  opportunity_cost : ℚ
  adjusted_profit : ℚ
deriving DecidableEq

/-- `get_cashflow_risk_analysis` (`route_cost_estimator.py:419-444`). -/
def get_cashflow_risk_analysis (payment_terms : String) (profit total_cost : ℚ) :
    CashflowAnalysis :=
  let risk_info := risk_levels payment_terms
  let cash_tied_up := total_cost
  let opportunity_cost := cash_tied_up * (0.10 / 365) * risk_info.days
  { risk_level := risk_info.risk
    color := risk_info.color
    days_to_payment := risk_info.days
    cash_tied_up := cash_tied_up
    opportunity_cost := opportunity_cost
    adjusted_profit := profit - opportunity_cost }

/-!  The manual slip-report app (`src/image_to_report_manual.py`): the
validation and report construction run on form submission (the
`if submitted:` block, lines 192-218). -/

/-- Python `s.replace('.', '', 1)` on a character list: drop the first
`'.'` if there is one. -/
def removeFirstDotAux : List Char → List Char
  | [] => []
  | c :: cs => if c = '.' then cs else c :: removeFirstDotAux cs

/-- Python `s.replace('.', '', 1)`: remove the first `'.'`, if any. -/
def removeFirstDot (s : String) : String :=
  ⟨removeFirstDotAux s.data⟩

/-- Python `str.isdigit` (ASCII): non-empty and all characters digits. -/
def strIsdigit (s : String) : Bool :=
  !s.data.isEmpty && s.data.all Char.isDigit

/-- Python `str.upper` (ASCII): uppercase every character. -/
def pyUpper (s : String) : String :=
  ⟨s.data.map Char.toUpper⟩

/-- The five text fields of the slip-data verification form
(`image_to_report_manual.py:156-190`). -/
structure SlipForm where
  date : String
  truck_id : String
  quantity : String
  quantity_type : String
  slip_number : String
deriving DecidableEq

/-- The `errors` list built on submission
(`image_to_report_manual.py:194-202`).  A Python string is falsy exactly
when it is empty. -/
def slipErrors (f : SlipForm) : List String :=
  (if f.date = "" then ["Date is required"] else []) ++
  (if f.truck_id = "" then ["Truck ID is required"] else []) ++
  (if f.quantity = "" then ["Quantity is required"]
   else if !strIsdigit (removeFirstDot f.quantity) then ["Quantity must be a number"]
   else [])

/-- One row of the `report_data` frame (`image_to_report_manual.py:209-216`);
the wall-clock timestamp column is not modelled. -/
structure SlipReport where
  date : String
  truck_id : String
  quantity_type : String
  quantity : ℚ
  slip_number : String
deriving DecidableEq

/-- The `if submitted:` block (`image_to_report_manual.py:192-218`): when
the `errors` list is empty, build the report row with
`float(quantity)` and `truck_id.upper()`; otherwise produce no row. -/
def submitSlip (f : SlipForm) : Option SlipReport :=
  if slipErrors f = [] then
    (parseDecimal? f.quantity).map (fun q =>
      { date := f.date
        truck_id := pyUpper f.truck_id
        quantity_type := f.quantity_type
        quantity := q
        slip_number := f.slip_number })
  else none

/-!  Concrete inputs used by the claim theorems and witnesses. -/

/-- The sample scenario bundled with the estimator
(`route_cost_estimator.py:1033-1049`): Johannesburg to Cape Town. -/
def sampleMap : InputMap :=
  { distance := some (.num 1400), load := some (.num 25), fuel_price := some (.num 23.5),
    toll_fees := some (.num 850), turnaround_time := some (.num 36),
    rate_per_ton := some (.num 450), payment_terms := some (.str "Weekly") }

/-- The sample scenario's six numeric inputs. -/
def qSample : QInputs := ⟨1400, 25, 23.5, 850, 36, 450⟩

/-- A mapping with a negative `distance` and every other key absent. -/
def negMap : InputMap := { distance := some (.num (-1)) }

/-- The numeric inputs `negMap` extracts to. -/
def qNeg : QInputs := ⟨-1, 0, 0, 0, 0, 0⟩

/-- A mapping whose `distance` value is the non-numeric string `"abc"`. -/
def strMap : InputMap := { distance := some (.str "abc") }

/-- A mapping with every key absent. -/
def emptyInputMap : InputMap := {}

/-- A filled-in slip form with a valid numeric quantity. -/
def slipSampleForm : SlipForm := ⟨"01/02/2024", "abc123", "12", "litres", "S1"⟩

/-- The report row the sample slip form generates. -/
def slipSampleReport : SlipReport := ⟨"01/02/2024", "ABC123", "litres", 12, "S1"⟩

/-!  Helper lemmas (shared; none of them is a claim theorem). -/

theorem calc_ok_of_reads {m : InputMap} {q : QInputs} (h : ReadsAs m q) :
    calculate_costs_and_profit m = .ok (computeResults q) := by
  obtain ⟨h1, h2, h3, h4, h5, h6⟩ := h
  simp only [calculate_costs_and_profit, h1, h2, h3, h4, h5, h6, bind, Except.bind, pure,
    Except.pure]

theorem data_mk (l : List Char) : (String.mk l).data = l := rfl

theorem removeFirstDotAux_split (l : List Char) :
    removeFirstDotAux l = (splitFirstDot l).1 ++ (splitFirstDot l).2.getD [] ∧
      ((splitFirstDot l).2 = none → (splitFirstDot l).1 = l) := by
  induction l with
  | nil => simp [removeFirstDotAux, splitFirstDot]
  | cons c cs ih =>
    by_cases hc : c = '.'
    · simp [removeFirstDotAux, splitFirstDot, hc]
    · simp only [removeFirstDotAux, splitFirstDot, if_neg hc]
      refine ⟨by simpa using ih.1, fun h => by simp_all⟩

theorem not_contains_dot {b : List Char} (h : b.all Char.isDigit = true) :
    b.contains '.' = false := by
  simp only [List.elem_eq_mem, decide_eq_false_iff_not]
  intro hmem
  exact absurd (List.all_eq_true.mp h _ hmem) (by decide)

theorem parseUnsigned_of_digits {l : List Char}
    (hne : removeFirstDotAux l ≠ [])
    (hdig : (removeFirstDotAux l).all Char.isDigit = true) :
    ∃ q, parseUnsigned? l = some q := by
  obtain ⟨heq, hnone⟩ := removeFirstDotAux_split l
  rw [parseUnsigned?]
  split
  · rename_i hb
    have h1 : (splitFirstDot l).1 = l := hnone hb
    rw [hb, Option.getD_none, List.append_nil, h1] at heq
    rw [h1, if_pos]
    · exact ⟨_, rfl⟩
    · simp only [Bool.and_eq_true, Bool.not_eq_true', List.isEmpty_eq_false]
      exact ⟨heq ▸ hne, heq ▸ hdig⟩
  · rename_i b hb
    rw [hb, Option.getD_some] at heq
    have hne' : (splitFirstDot l).1 ++ b ≠ [] := heq ▸ hne
    have hdig' : ((splitFirstDot l).1 ++ b).all Char.isDigit = true := heq ▸ hdig
    simp only [List.all_append, Bool.and_eq_true] at hdig'
    have hcond : ((!(splitFirstDot l).1.isEmpty || !b.isEmpty) &&
        (splitFirstDot l).1.all Char.isDigit && b.all Char.isDigit) = true := by
      simp only [Bool.and_eq_true, Bool.or_eq_true, Bool.not_eq_true', List.isEmpty_eq_false]
      refine ⟨⟨?_, hdig'.1⟩, hdig'.2⟩
      by_cases hp : (splitFirstDot l).1 = []
      · right; intro hb0; exact hne' (by simp [hp, hb0])
      · left; exact hp
    rw [if_neg (by rw [not_contains_dot hdig'.2]; simp), if_pos hcond]
    exact ⟨_, rfl⟩

theorem parse_of_isdigit {s : String} (h : strIsdigit (removeFirstDot s) = true) :
    ∃ q, parseDecimal? s = some q := by
  rw [strIsdigit, removeFirstDot, data_mk] at h
  simp only [Bool.and_eq_true, Bool.not_eq_true', List.isEmpty_eq_false] at h
  obtain ⟨hne, hdig⟩ := h
  rw [parseDecimal?]
  rcases hd : s.data with _ | ⟨c, rest⟩
  · rw [hd, removeFirstDotAux] at hne
    exact absurd rfl hne
  · rw [hd] at hne hdig
    have hc : c = '.' ∨ c.isDigit = true := by
      by_cases hcd : c = '.'
      · exact Or.inl hcd
      · rw [removeFirstDotAux, if_neg hcd] at hdig
        simp only [List.all_cons, Bool.and_eq_true] at hdig
        exact Or.inr hdig.1
    have hm : c ≠ '-' := by
      rcases hc with h1 | h1
      · rw [h1]; decide
      · intro he; rw [he] at h1; exact absurd h1 (by decide)
    have hp : c ≠ '+' := by
      rcases hc with h1 | h1
      · rw [h1]; decide
      · intro he; rw [he] at h1; exact absurd h1 (by decide)
    rw [parseSigned?, if_neg hm, if_neg hp]
    exact parseUnsigned_of_digits hne hdig

theorem slipErrors_nil_iff (f : SlipForm) :
    slipErrors f = [] ↔
      (f.date ≠ "" ∧ f.truck_id ≠ "" ∧ f.quantity ≠ "" ∧
        strIsdigit (removeFirstDot f.quantity) = true) := by
  rw [slipErrors]
  by_cases hd : f.date = "" <;>
    by_cases ht : f.truck_id = "" <;>
      by_cases hq : f.quantity = "" <;>
        rcases hs : strIsdigit (removeFirstDot f.quantity) with _ | _ <;>
          simp [hd, ht, hq, hs]

/-!  Claim theorems. -/

/-- C1: for every input mapping with non-negative numeric values,
`calculate_costs_and_profit` returns `total_cost` exactly equal to
`fuel_cost + driver_cost + vehicle_operating_cost + toll_fees + admin_cost`,
with `admin_cost` computed as 8% of the pre-admin sum
`fuel_cost + driver_cost + vehicle_operating_cost + toll_fees`, so
`toll_fees` is counted exactly once in `total_cost`. -/
theorem total_cost_no_double_count (m : InputMap) (q : QInputs) (r : Results)
    (hread : ReadsAs m q) (_hnn : q.Nonneg)
    (hr : calculate_costs_and_profit m = .ok r) :
    r.total_cost =
      r.fuel_cost + r.driver_cost + r.vehicle_operating_cost + r.toll_fees + r.admin_cost ∧
    r.admin_cost =
      (r.fuel_cost + r.driver_cost + r.vehicle_operating_cost + r.toll_fees) *
        ADMIN_OVERHEAD_PERCENTAGE := by
  rw [calc_ok_of_reads hread] at hr
  injection hr with h
  subst h
  exact ⟨rfl, rfl⟩

/-- Witness for C1 at the sample scenario. -/
theorem total_cost_no_double_count_witness :
    (computeResults qSample).total_cost =
      (computeResults qSample).fuel_cost + (computeResults qSample).driver_cost +
        (computeResults qSample).vehicle_operating_cost + (computeResults qSample).toll_fees +
        (computeResults qSample).admin_cost ∧
    (computeResults qSample).admin_cost =
      ((computeResults qSample).fuel_cost + (computeResults qSample).driver_cost +
        (computeResults qSample).vehicle_operating_cost + (computeResults qSample).toll_fees) *
        ADMIN_OVERHEAD_PERCENTAGE :=
  total_cost_no_double_count sampleMap qSample (computeResults qSample)
    ⟨rfl, rfl, rfl, rfl, rfl, rfl⟩ (by norm_num [qSample, QInputs.Nonneg])
    (calc_ok_of_reads ⟨rfl, rfl, rfl, rfl, rfl, rfl⟩)

/-- C2: on the sample inputs (distance 1400, load 25, fuel price 23.50,
toll fees 850, turnaround time 36, rate per ton 450) with the built-in
rates, `calculate_costs_and_profit` returns exactly fuel_cost 11515,
driver_cost 3060, vehicle_operating_cost 6300, admin_cost 1738,
total_cost 23463, total_revenue 11250 and profit −12213 (a loss). -/
theorem sample_scenario_exact :
    calculate_costs_and_profit sampleMap = .ok (computeResults qSample) ∧
    (computeResults qSample).fuel_cost = 11515 ∧
    (computeResults qSample).driver_cost = 3060 ∧
    (computeResults qSample).vehicle_operating_cost = 6300 ∧
    (computeResults qSample).admin_cost = 1738 ∧
    (computeResults qSample).total_cost = 23463 ∧
    (computeResults qSample).total_revenue = 11250 ∧
    (computeResults qSample).profit = -12213 := by
  refine ⟨calc_ok_of_reads ⟨rfl, rfl, rfl, rfl, rfl, rfl⟩, ?_⟩
  norm_num [computeResults, qSample, FUEL_CONSUMPTION_PER_KM, DRIVER_COST_PER_HOUR,
    VEHICLE_OPERATING_COST_PER_KM, ADMIN_OVERHEAD_PERCENTAGE]

/-- C3: for every non-negative input, `calculate_costs_and_profit` does
not raise, and it returns profit_margin 0 whenever total_revenue is 0,
cost_per_ton 0 and recommended_rate_per_ton 0 whenever load is 0, and
recommended_rate_per_km 0 whenever distance is 0. -/
theorem zero_denominator_policy (m : InputMap) (q : QInputs)
    (hread : ReadsAs m q) (_hnn : q.Nonneg) :
    calculate_costs_and_profit m = .ok (computeResults q) ∧
    ((computeResults q).total_revenue = 0 → (computeResults q).profit_margin = 0) ∧
    (q.load = 0 →
      (computeResults q).cost_per_ton = 0 ∧ (computeResults q).recommended_rate_per_ton = 0) ∧
    (q.distance = 0 → (computeResults q).recommended_rate_per_km = 0) := by
  refine ⟨calc_ok_of_reads hread, ?_, ?_, ?_⟩
  · intro h0
    have h0' : q.load * q.rate_per_ton = 0 := h0
    simp [computeResults, h0']
  · intro hl
    simp [computeResults, hl]
  · intro hd
    simp [computeResults, hd]

/-- Witness for C3 at the all-zero input. -/
theorem zero_denominator_policy_witness :
    calculate_costs_and_profit emptyInputMap = .ok (computeResults ⟨0, 0, 0, 0, 0, 0⟩) ∧
    ((computeResults ⟨0, 0, 0, 0, 0, 0⟩).total_revenue = 0 →
      (computeResults ⟨0, 0, 0, 0, 0, 0⟩).profit_margin = 0) ∧
    ((0 : ℚ) = 0 →
      (computeResults ⟨0, 0, 0, 0, 0, 0⟩).cost_per_ton = 0 ∧
        (computeResults ⟨0, 0, 0, 0, 0, 0⟩).recommended_rate_per_ton = 0) ∧
    ((0 : ℚ) = 0 → (computeResults ⟨0, 0, 0, 0, 0, 0⟩).recommended_rate_per_km = 0) :=
  zero_denominator_policy emptyInputMap ⟨0, 0, 0, 0, 0, 0⟩ ⟨rfl, rfl, rfl, rfl, rfl, rfl⟩
    (by norm_num [QInputs.Nonneg])

/-- C9: for every input with distance > 0, the returned
recommended_rate_per_km equals total_revenue / distance, which is
load × rate_per_ton / distance — derived from revenue only, hence
independent of all computed costs and of the 20% markup. -/
theorem recommended_rate_per_km_from_revenue (m : InputMap) (q : QInputs) (r : Results)
    (hread : ReadsAs m q) (hd : 0 < q.distance)
    (hr : calculate_costs_and_profit m = .ok r) :
    r.recommended_rate_per_km = r.total_revenue / q.distance ∧
    r.recommended_rate_per_km = q.load * q.rate_per_ton / q.distance := by
  rw [calc_ok_of_reads hread] at hr
  injection hr with h
  subst h
  constructor <;> simp [computeResults, if_pos hd]

/-- Witness for C9 at the sample scenario. -/
theorem recommended_rate_per_km_from_revenue_witness :
    (computeResults qSample).recommended_rate_per_km =
      (computeResults qSample).total_revenue / qSample.distance ∧
    (computeResults qSample).recommended_rate_per_km =
      qSample.load * qSample.rate_per_ton / qSample.distance :=
  recommended_rate_per_km_from_revenue sampleMap qSample (computeResults qSample)
    ⟨rfl, rfl, rfl, rfl, rfl, rfl⟩ (by norm_num [qSample])
    (calc_ok_of_reads ⟨rfl, rfl, rfl, rfl, rfl, rfl⟩)

/-- C5: `get_cashflow_risk_analysis` maps Cash to (Low, 0 days), Daily to
(Low, 1 day), Weekly to (Medium, 7 days), Monthly to (High, 30 days), and
every other payment-terms string falls back to the Weekly entry
(Medium, 7 days) instead of raising. -/
theorem cashflow_lookup_table (s : String) (p c : ℚ) :
    ((get_cashflow_risk_analysis "Cash" p c).risk_level = "Low" ∧
      (get_cashflow_risk_analysis "Cash" p c).days_to_payment = 0) ∧
    ((get_cashflow_risk_analysis "Daily" p c).risk_level = "Low" ∧
      (get_cashflow_risk_analysis "Daily" p c).days_to_payment = 1) ∧
    ((get_cashflow_risk_analysis "Weekly" p c).risk_level = "Medium" ∧
      (get_cashflow_risk_analysis "Weekly" p c).days_to_payment = 7) ∧
    ((get_cashflow_risk_analysis "Monthly" p c).risk_level = "High" ∧
      (get_cashflow_risk_analysis "Monthly" p c).days_to_payment = 30) ∧
    (s ≠ "Cash" → s ≠ "Daily" → s ≠ "Weekly" → s ≠ "Monthly" →
      (get_cashflow_risk_analysis s p c).risk_level = "Medium" ∧
      (get_cashflow_risk_analysis s p c).days_to_payment = 7) := by
  refine ⟨⟨rfl, rfl⟩, ⟨rfl, rfl⟩, ⟨rfl, rfl⟩, ⟨rfl, rfl⟩, ?_⟩
  intro h1 h2 h3 h4
  rw [get_cashflow_risk_analysis, risk_levels, if_neg h1, if_neg h2, if_neg h3, if_neg h4]
  exact ⟨rfl, rfl⟩

/-- Witness for C5 at the unknown payment-terms string "Net 30". -/
theorem cashflow_lookup_table_witness :
    (get_cashflow_risk_analysis "Net 30" 1 2).risk_level = "Medium" ∧
    (get_cashflow_risk_analysis "Net 30" 1 2).days_to_payment = 7 :=
  (cashflow_lookup_table "Net 30" 1 2).2.2.2.2 (by decide) (by decide) (by decide) (by decide)

/-- C6: for every payment-terms string, profit and total_cost,
`get_cashflow_risk_analysis` returns
opportunity_cost = total_cost × (0.10 / 365) × days_to_payment,
adjusted_profit = profit − opportunity_cost, and
cash_tied_up = total_cost. -/
theorem cashflow_formulas (s : String) (profit total_cost : ℚ) :
    (get_cashflow_risk_analysis s profit total_cost).opportunity_cost =
      total_cost * (0.10 / 365) *
        (get_cashflow_risk_analysis s profit total_cost).days_to_payment ∧
    (get_cashflow_risk_analysis s profit total_cost).adjusted_profit =
      profit - (get_cashflow_risk_analysis s profit total_cost).opportunity_cost ∧
    (get_cashflow_risk_analysis s profit total_cost).cash_tied_up = total_cost :=
  ⟨rfl, rfl, rfl⟩

/-- C7: for two inputs identical except for the fuel price, with
fuel_price1 < fuel_price2 and distance > 0, `calculate_costs_and_profit`
returns a strictly larger total_cost and a strictly smaller profit for
the higher fuel price. -/
theorem fuel_price_strict_monotone (m : InputMap) (q : QInputs) (p1 p2 : ℚ)
    (hread : ReadsAs m q) (hp : p1 < p2) (hd : 0 < q.distance) :
    ∃ r1 r2,
      calculate_costs_and_profit { m with fuel_price := some (.num p1) } = .ok r1 ∧
      calculate_costs_and_profit { m with fuel_price := some (.num p2) } = .ok r2 ∧
      r1.total_cost < r2.total_cost ∧ r2.profit < r1.profit := by
  obtain ⟨h1, h2, _h3, h4, h5, h6⟩ := hread
  refine ⟨computeResults { q with fuel_price := p1 }, computeResults { q with fuel_price := p2 },
    calc_ok_of_reads ⟨h1, h2, rfl, h4, h5, h6⟩, calc_ok_of_reads ⟨h1, h2, rfl, h4, h5, h6⟩,
    ?_, ?_⟩
  · simp only [computeResults, FUEL_CONSUMPTION_PER_KM, DRIVER_COST_PER_HOUR,
      VEHICLE_OPERATING_COST_PER_KM, ADMIN_OVERHEAD_PERCENTAGE]
    nlinarith [mul_pos hd (sub_pos.mpr hp)]
  · simp only [computeResults, FUEL_CONSUMPTION_PER_KM, DRIVER_COST_PER_HOUR,
      VEHICLE_OPERATING_COST_PER_KM, ADMIN_OVERHEAD_PERCENTAGE]
    nlinarith [mul_pos hd (sub_pos.mpr hp)]

/-- Witness for C7 at the sample scenario with fuel prices 20 < 25. -/
theorem fuel_price_strict_monotone_witness :
    ∃ r1 r2,
      calculate_costs_and_profit { sampleMap with fuel_price := some (.num 20) } = .ok r1 ∧
      calculate_costs_and_profit { sampleMap with fuel_price := some (.num 25) } = .ok r2 ∧
      r1.total_cost < r2.total_cost ∧ r2.profit < r1.profit :=
  fuel_price_strict_monotone sampleMap qSample 20 25 ⟨rfl, rfl, rfl, rfl, rfl, rfl⟩
    (by norm_num) (by norm_num [qSample])

/-- C4 counterexample: on a mapping whose `distance` is −1 (a negative
numeric field), `calculate_costs_and_profit` raises nothing and returns a
full result object — no ValidationError interrupts the computation. -/
theorem negative_input_returns_result :
    calculate_costs_and_profit negMap = .ok (computeResults qNeg) ∧
    (computeResults qNeg).vehicle_operating_cost = -9/2 :=
  ⟨calc_ok_of_reads ⟨rfl, rfl, rfl, rfl, rfl, rfl⟩, by
    norm_num [computeResults, qNeg, VEHICLE_OPERATING_COST_PER_KM]⟩

/-- C4 amended: the engine performs no validation — on any input whose
numeric keys read as numbers with a negative distance, it returns a
result (no exception), and the negative value propagates into the
returned cost fields. -/
theorem no_validation_negative_accepted (m : InputMap) (q : QInputs)
    (hread : ReadsAs m q) (hneg : q.distance < 0) :
    calculate_costs_and_profit m = .ok (computeResults q) ∧
    (computeResults q).vehicle_operating_cost < 0 := by
  refine ⟨calc_ok_of_reads hread, ?_⟩
  show q.distance * VEHICLE_OPERATING_COST_PER_KM < 0
  rw [VEHICLE_OPERATING_COST_PER_KM]
  nlinarith [hneg]

/-- Witness for the amended C4 at distance −1. -/
theorem no_validation_negative_accepted_witness :
    calculate_costs_and_profit negMap = .ok (computeResults qNeg) ∧
    (computeResults qNeg).vehicle_operating_cost < 0 :=
  no_validation_negative_accepted negMap qNeg ⟨rfl, rfl, rfl, rfl, rfl, rfl⟩
    (by norm_num [qNeg])

/-- C8 counterexample: on a mapping whose `distance` value is the
non-numeric string "abc", `calculate_costs_and_profit` raises (Python
`float("abc")` throws ValueError), so the function is not total on
arbitrary input mappings. -/
theorem nonnumeric_string_raises :
    calculate_costs_and_profit strMap =
      .error "ValueError: could not convert string to float" := by
  decide

/-- C8 amended: `calculate_costs_and_profit` is total on every input
mapping whose numeric keys read as numbers (absent keys default to 0 and
negative values are accepted — there is no rejection at the engine
boundary); in particular the all-absent mapping returns the result of
all-zero inputs. -/
theorem total_on_numeric_maps (m : InputMap) (q : QInputs) (hread : ReadsAs m q) :
    calculate_costs_and_profit m = .ok (computeResults q) ∧
    calculate_costs_and_profit emptyInputMap = .ok (computeResults ⟨0, 0, 0, 0, 0, 0⟩) :=
  ⟨calc_ok_of_reads hread, calc_ok_of_reads ⟨rfl, rfl, rfl, rfl, rfl, rfl⟩⟩

/-- Witness for the amended C8 at the negative-distance mapping. -/
theorem total_on_numeric_maps_witness :
    calculate_costs_and_profit negMap = .ok (computeResults qNeg) ∧
    calculate_costs_and_profit emptyInputMap = .ok (computeResults ⟨0, 0, 0, 0, 0, 0⟩) :=
  total_on_numeric_maps negMap qNeg ⟨rfl, rfl, rfl, rfl, rfl, rfl⟩

/-- C10: submitting the slip form generates a report iff date, truck_id
and quantity are all non-empty and quantity, after removing at most one
dot, consists only of digits; a generated report carries
`float(quantity)` as its Quantity and the uppercased input as its
Truck ID; on any validation failure no report row is produced. -/
theorem slip_submit_spec (f : SlipForm) :
    ((submitSlip f).isSome ↔
      (f.date ≠ "" ∧ f.truck_id ≠ "" ∧ f.quantity ≠ "" ∧
        strIsdigit (removeFirstDot f.quantity) = true)) ∧
    (∀ r, submitSlip f = some r →
      r.quantity_type = f.quantity_type ∧ r.truck_id = pyUpper f.truck_id ∧
      parseDecimal? f.quantity = some r.quantity ∧
      r.date = f.date ∧ r.slip_number = f.slip_number) := by
  constructor
  · constructor
    · intro hs
      rw [submitSlip] at hs
      by_cases he : slipErrors f = []
      · exact (slipErrors_nil_iff f).mp he
      · rw [if_neg he] at hs
        simp at hs
    · intro hc
      have he : slipErrors f = [] := (slipErrors_nil_iff f).mpr hc
      obtain ⟨q, hq⟩ := parse_of_isdigit hc.2.2.2
      rw [submitSlip, if_pos he, hq]
      simp
  · intro r hr
    rw [submitSlip] at hr
    by_cases he : slipErrors f = []
    · rw [if_pos he] at hr
      rcases hp : parseDecimal? f.quantity with _ | q
      · rw [hp] at hr
        simp at hr
      · rw [hp] at hr
        simp only [Option.map_some'] at hr
        injection hr with h
        subst h
        exact ⟨rfl, rfl, rfl, rfl, rfl⟩
    · rw [if_neg he] at hr
      simp at hr

/-- Witness for C10 at the sample slip form. -/
theorem slip_submit_spec_witness :
    slipSampleReport.quantity_type = slipSampleForm.quantity_type ∧
    slipSampleReport.truck_id = pyUpper slipSampleForm.truck_id ∧
    parseDecimal? slipSampleForm.quantity = some slipSampleReport.quantity ∧
    slipSampleReport.date = slipSampleForm.date ∧
    slipSampleReport.slip_number = slipSampleForm.slip_number :=
  (slip_submit_spec slipSampleForm).2 slipSampleReport (by decide)

end PrimeTools
